import Mathlib

/-!
# Gateway panel-protocol engine: a shallow embedding

This file embeds the core of the Gateway fire-panel protocol engine in Lean 4
and proves/refutes the specification claims about it.

Embedded source units:
* `panel_serial_Advanced.cpp` — the Binary-CRC-Stuffed (Advanced BMS) parser:
  CRC tables, `advancedCrcUpdate`, `validateCRC`, `checkPacketFormat`,
  `validateAdvancedBmsPacket`, `advancedAddClashCodes`, `serialRxAdvanced`.
* `panel_serial_Gent.cpp` — the Binary-Checksummed parser `serialRxGent` and
  `rxGentValidateEventPair`.
* the panel-protocol module — registry `setProtocolType`, ASCII parser
  `serialRxAdvancedAscii`, Transfer Encoder `serialTxEventToNimbus`.

Machine integers are modelled as `Nat` with explicit `% 256` / `% 65536`
where the C code's `uint8_t`/`uint16_t` arithmetic can wrap.  The shared
receive buffer is modelled as the list of bytes written for the frame in
progress: every write in the C code happens at index `serialRxLength` followed
by `serialRxLength++`, so the list of written bytes (in order) is a faithful
image of the buffer contents for the current frame.
-/

set_option maxRecDepth 4000

namespace Gateway

/-! ## CRC tables (from `panel_serial_Advanced.cpp`, `crc_table_low`/`crc_table_high`) -/

def crcTableLow : List Nat :=
  [0x00, 0xc0, 0xc1, 0x01, 0xc3, 0x03, 0x02, 0xc2, 0xc6, 0x06, 0x07, 0xc7, 0x05, 0xc5, 0xc4, 0x04,
   0xcc, 0x0c, 0x0d, 0xcd, 0x0f, 0xcf, 0xce, 0x0e, 0x0a, 0xca, 0xcb, 0x0b, 0xc9, 0x09, 0x08, 0xc8,
   0xd8, 0x18, 0x19, 0xd9, 0x1b, 0xdb, 0xda, 0x1a, 0x1e, 0xde, 0xdf, 0x1f, 0xdd, 0x1d, 0x1c, 0xdc,
   0x14, 0xd4, 0xd5, 0x15, 0xd7, 0x17, 0x16, 0xd6, 0xd2, 0x12, 0x13, 0xd3, 0x11, 0xd1, 0xd0, 0x10,
   0xf0, 0x30, 0x31, 0xf1, 0x33, 0xf3, 0xf2, 0x32, 0x36, 0xf6, 0xf7, 0x37, 0xf5, 0x35, 0x34, 0xf4,
   0x3c, 0xfc, 0xfd, 0x3d, 0xff, 0x3f, 0x3e, 0xfe, 0xfa, 0x3a, 0x3b, 0xfb, 0x39, 0xf9, 0xf8, 0x38,
   0x28, 0xe8, 0xe9, 0x29, 0xeb, 0x2b, 0x2a, 0xea, 0xee, 0x2e, 0x2f, 0xef, 0x2d, 0xed, 0xec, 0x2c,
   0xe4, 0x24, 0x25, 0xe5, 0x27, 0xe7, 0xe6, 0x26, 0x22, 0xe2, 0xe3, 0x23, 0xe1, 0x21, 0x20, 0xe0,
   0xa0, 0x60, 0x61, 0xa1, 0x63, 0xa3, 0xa2, 0x62, 0x66, 0xa6, 0xa7, 0x67, 0xa5, 0x65, 0x64, 0xa4,
   0x6c, 0xac, 0xad, 0x6d, 0xaf, 0x6f, 0x6e, 0xae, 0xaa, 0x6a, 0x6b, 0xab, 0x69, 0xa9, 0xa8, 0x68,
   0x78, 0xb8, 0xb9, 0x79, 0xbb, 0x7b, 0x7a, 0xba, 0xbe, 0x7e, 0x7f, 0xbf, 0x7d, 0xbd, 0xbc, 0x7c,
   0xb4, 0x74, 0x75, 0xb5, 0x77, 0xb7, 0xb6, 0x76, 0x72, 0xb2, 0xb3, 0x73, 0xb1, 0x71, 0x70, 0xb0,
   0x50, 0x90, 0x91, 0x51, 0x93, 0x53, 0x52, 0x92, 0x96, 0x56, 0x57, 0x97, 0x55, 0x95, 0x94, 0x54,
   0x9c, 0x5c, 0x5d, 0x9d, 0x5f, 0x9f, 0x9e, 0x5e, 0x5a, 0x9a, 0x9b, 0x5b, 0x99, 0x59, 0x58, 0x98,
   0x88, 0x48, 0x49, 0x89, 0x4b, 0x8b, 0x8a, 0x4a, 0x4e, 0x8e, 0x8f, 0x4f, 0x8d, 0x4d, 0x4c, 0x8c,
   0x44, 0x84, 0x85, 0x45, 0x87, 0x47, 0x46, 0x86, 0x82, 0x42, 0x43, 0x83, 0x41, 0x81, 0x80, 0x40]

def crcTableHigh : List Nat :=
  [0x00, 0xc1, 0x81, 0x40, 0x01, 0xc0, 0x80, 0x41, 0x01, 0xc0, 0x80, 0x41, 0x00, 0xc1, 0x81, 0x40,
   0x01, 0xc0, 0x80, 0x41, 0x00, 0xc1, 0x81, 0x40, 0x00, 0xc1, 0x81, 0x40, 0x01, 0xc0, 0x80, 0x41,
   0x01, 0xc0, 0x80, 0x41, 0x00, 0xc1, 0x81, 0x40, 0x00, 0xc1, 0x81, 0x40, 0x01, 0xc0, 0x80, 0x41,
   0x00, 0xc1, 0x81, 0x40, 0x01, 0xc0, 0x80, 0x41, 0x01, 0xc0, 0x80, 0x41, 0x00, 0xc1, 0x81, 0x40,
   0x01, 0xc0, 0x80, 0x41, 0x00, 0xc1, 0x81, 0x40, 0x00, 0xc1, 0x81, 0x40, 0x01, 0xc0, 0x80, 0x41,
   0x00, 0xc1, 0x81, 0x40, 0x01, 0xc0, 0x80, 0x41, 0x01, 0xc0, 0x80, 0x41, 0x00, 0xc1, 0x81, 0x40,
   0x00, 0xc1, 0x81, 0x40, 0x01, 0xc0, 0x80, 0x41, 0x01, 0xc0, 0x80, 0x41, 0x00, 0xc1, 0x81, 0x40,
   0x01, 0xc0, 0x80, 0x41, 0x00, 0xc1, 0x81, 0x40, 0x00, 0xc1, 0x81, 0x40, 0x01, 0xc0, 0x80, 0x41,
   0x01, 0xc0, 0x80, 0x41, 0x00, 0xc1, 0x81, 0x40, 0x00, 0xc1, 0x81, 0x40, 0x01, 0xc0, 0x80, 0x41,
   0x00, 0xc1, 0x81, 0x40, 0x01, 0xc0, 0x80, 0x41, 0x01, 0xc0, 0x80, 0x41, 0x00, 0xc1, 0x81, 0x40,
   0x00, 0xc1, 0x81, 0x40, 0x01, 0xc0, 0x80, 0x41, 0x01, 0xc0, 0x80, 0x41, 0x00, 0xc1, 0x81, 0x40,
   0x01, 0xc0, 0x80, 0x41, 0x00, 0xc1, 0x81, 0x40, 0x00, 0xc1, 0x81, 0x40, 0x01, 0xc0, 0x80, 0x41,
   0x00, 0xc1, 0x81, 0x40, 0x01, 0xc0, 0x80, 0x41, 0x01, 0xc0, 0x80, 0x41, 0x00, 0xc1, 0x81, 0x40,
   0x01, 0xc0, 0x80, 0x41, 0x00, 0xc1, 0x81, 0x40, 0x00, 0xc1, 0x81, 0x40, 0x01, 0xc0, 0x80, 0x41,
   0x01, 0xc0, 0x80, 0x41, 0x00, 0xc1, 0x81, 0x40, 0x00, 0xc1, 0x81, 0x40, 0x01, 0xc0, 0x80, 0x41,
   0x00, 0xc1, 0x81, 0x40, 0x01, 0xc0, 0x80, 0x41, 0x01, 0xc0, 0x80, 0x41, 0x00, 0xc1, 0x81, 0x40]

/-- `advancedCrcUpdate` folded over a byte list.  State is the
`(crc_hi, crc_lo)` pair; per byte: `table_index = crc_hi ^ b`,
`crc_hi' = crc_lo ^ crc_table_high[table_index]`, `crc_lo' = crc_table_low[table_index]`. -/
def advancedCrcUpdate (bytes : List Nat) (hi lo : Nat) : Nat × Nat :=
  match bytes with
  | [] => (hi, lo)
  | b :: rest =>
    let tableIndex := hi ^^^ b
    advancedCrcUpdate rest (lo ^^^ crcTableHigh.getD tableIndex 0) (crcTableLow.getD tableIndex 0)

/-- `validateCRC ( buf, len )`: CRC-16 over `buf[1] .. buf[len-4]`
(that is, `len - 4` bytes starting at `buf + 1`), seeded `0xff/0xff`,
compared against `buf[len-3]` (high) and `buf[len-2]` (low). -/
def validateCRC (buf : List Nat) (len : Nat) : Bool :=
  let p := advancedCrcUpdate ((buf.drop 1).take (len - 4)) 0xff 0xff
  (buf.getD (len - 3) 0 == p.1) && (buf.getD (len - 2) 0 == p.2)

/-- The 7-entry `idCodeTable` identifier codes (Acknowledgement, Device Status,
Node Status, Network Configuration Change, Zone Text, Analogue Value,
Output Activated/Deactivated). -/
def knownIdCodes : List Nat := [0x01, 0x0a, 0x0b, 0x0c, 0x0d, 0x0e, 0x0f]

/-- The `do { ... } while (code != 0xf0)` loop of `checkPacketFormat`.

Arguments mirror the C locals: `code` is the identifier code just read,
`offset` is the `uint8_t` scan offset (already pointing past the code byte),
`dev` is the running `idCodeTable[1].count` (occurrences of 0x0A,
"Device Status").  One unit of fuel is one loop iteration.  The loop's state
per iteration is the 8-bit offset, so any run that has not finished within
257 iterations revisits an offset and the C loop never terminates; fuel 300
(used below) therefore exhausts only on inputs where the C code loops
forever, and exhaustion is mapped to `false` (the packet is never judged
valid).  Returns `(format ok, Device-Status count)`. -/
def formatLoop (buf : List Nat) (maxOffset : Nat) :
    Nat → Nat → Nat → Nat → Bool × Nat
  | 0, _, _, dev => (false, dev)
  | fuel + 1, code, offset, dev =>
    if code ∈ knownIdCodes then
      -- matching table entry found: count it
      let dev' := if code = 0x0a then dev + 1 else dev
      -- offset += serialRxBuffer[offset] - 1  (uint8_t arithmetic)
      let o1 := (offset + buf.getD offset 0 + 255) % 256
      if o1 > maxOffset then (false, dev')
      else
        -- code = serialRxBuffer[offset++]
        let code' := buf.getD o1 0
        if code' = 0xf0 then (true, dev')
        else formatLoop buf maxOffset fuel code' ((o1 + 1) % 256) dev'
    else (false, dev)

/-- `checkPacketFormat`: `maxOffset = serialRxLength - 4` (stored in a
`uint8_t`), first identifier code read at offset 5, then the scan loop.
Returns `(format ok, Device-Status count)`; the count is the value left in
`idCodeTable[1].count` (only meaningful when the scan succeeded, which is the
only case in which the C code consults it). -/
def checkPacketFormat (buf : List Nat) (len : Nat) : Bool × Nat :=
  formatLoop buf ((len - 4) % 256) 300 (buf.getD 5 0) 6 0

/-- `validateAdvancedBmsPacket`: minimum length 12, CRC, packet identity byte
`buf[1] == 0x80`, then the format scan. -/
def validateAdvancedBmsPacket (buf : List Nat) (len : Nat) : Bool :=
  if len < 12 then false
  else if !validateCRC buf len then false
  else if buf.getD 1 0 != 0x80 then false
  else (checkPacketFormat buf len).1

/-! ## Spec-side chain predicates

Two independent formulations of the claim's sub-message-chain condition,
phrased from the claim's words rather than the loop's variable flow.
`o` is the offset of the identifier code currently examined; the length byte
sits at the following offset; a length `L` moves the scan from code offset
`o` to code offset `o + L`. -/

/-- The chain condition exactly as the claim words it, with natural-number
offset arithmetic: every code belongs to the known set, each length advances
the scan offset without passing `bound` (= `len - 4`), and the chain
terminates at sentinel code 0xF0. -/
def origSubChain (buf : List Nat) (bound : Nat) : Nat → Nat → Bool
  | 0, _ => false
  | fuel + 1, o =>
    decide (buf.getD o 0 ∈ knownIdCodes) &&
      (let next := o + buf.getD (o + 1) 0
       decide (next ≤ bound) &&
        (buf.getD next 0 == 0xf0 || origSubChain buf bound fuel next))

/-- The chain condition amended to the code's 8-bit offset arithmetic: the
scan offset is reduced modulo 256 at every step, and the bound check applies
to the wrapped offset. -/
def specSubChain (buf : List Nat) (bound : Nat) : Nat → Nat → Bool
  | 0, _ => false
  | fuel + 1, o =>
    decide (buf.getD o 0 ∈ knownIdCodes) &&
      (let next := (o + buf.getD ((o + 1) % 256) 0) % 256
       decide (next ≤ bound) &&
        (buf.getD next 0 == 0xf0 || specSubChain buf bound fuel next))

/-! ## The Binary-CRC-Stuffed receive state machine (`serialRxAdvanced`)

State 0 waits for the 0xFE start sentinel, state 1 collects body bytes,
state 2 is the clash-escape state entered after a 0xFA prefix.
`discarded` is `totalDiscardedBytes`.  The step result's second component
records whether `serialTxEventToNimbus` was invoked during the step
(which also happens, under verbose, inside `advancedPacketReceptionError`). -/

structure AdvState where
  rx : Nat
  buf : List Nat
  discarded : Nat
  deriving Repr, DecidableEq

def advStep (verbose : Bool) (s : AdvState) (c : Nat) : AdvState × Bool :=
  match s.rx with
  | 0 =>
    if c = 0xfe then ({ rx := 1, buf := [0xfe], discarded := s.discarded }, false)
    else (s, false)
  | 1 =>
    if c = 0xff then
      -- end-of-frame byte appended, then full validation
      let buf' := s.buf ++ [0xff]
      let len' := buf'.length
      if validateAdvancedBmsPacket buf' len' then
        -- forward if verbose or the packet contains a Device Status message
        ({ rx := 0, buf := buf', discarded := s.discarded },
         verbose || decide (0 < (checkPacketFormat buf' len').2))
      else if verbose then
        -- invalid but forwarded anyway under verbose
        ({ rx := 0, buf := buf', discarded := s.discarded }, true)
      else
        ({ rx := 0, buf := buf', discarded := s.discarded + len' }, false)
    else if c = 0xfa then
      -- clash-escape prefix: note substitution, byte itself not stored
      ({ rx := 2, buf := s.buf, discarded := s.discarded }, false)
    else if 0xfa < c ∧ c ≤ 0xfe then
      -- unexpected clash code: error (forwards under verbose), dump everything
      ({ rx := 0, buf := s.buf, discarded := s.discarded + s.buf.length }, verbose)
    else if 108 ≤ s.buf.length then
      -- packet too long: error (forwards under verbose), dump everything
      ({ rx := 0, buf := s.buf, discarded := s.discarded + s.buf.length }, verbose)
    else
      ({ rx := 1, buf := s.buf ++ [c], discarded := s.discarded }, false)
  | 2 =>
    if 5 < c then
      -- invalid clash code: error (forwards under verbose), dump everything
      ({ rx := 0, buf := s.buf, discarded := s.discarded + s.buf.length }, verbose)
    else
      -- append the reconstituted byte, back to collecting
      ({ rx := 1, buf := s.buf ++ [c + 0xfa], discarded := s.discarded }, false)
  | _ => ({ rx := 0, buf := s.buf, discarded := s.discarded }, false)

/-- Feed a byte list through `serialRxAdvanced`; also counts forward calls. -/
def advRun (verbose : Bool) : AdvState → List Nat → AdvState × Nat
  | s, [] => (s, 0)
  | s, c :: cs =>
    let p := advStep verbose s c
    let q := advRun verbose p.1 cs
    (q.1, (if p.2 then 1 else 0) + q.2)

def advInit : AdvState := ⟨0, [], 0⟩

/-! ## The Line-Oriented-ASCII state machine (`serialRxAdvancedAscii`)

State 0 is Idle (tolerating leading blank lines), state 1 is Collecting,
state 2 is ErrorRecovery.  The C statics `lineCount`, `lineCharCount` and
`previousChar` are `uint8_t` and zero-initialised; `lineCharCount` is kept
modulo 256.  A step optionally emits the forwarded message (the buffer at
the moment `serialTxEventToNimbus` is called). -/

structure AsciiState where
  rx : Nat
  buf : List Nat
  lineCount : Nat
  lineCharCount : Nat
  prev : Nat
  deriving Repr, DecidableEq

def asciiStep (s : AsciiState) (c : Nat) : AsciiState × Option (List Nat) :=
  match s.rx with
  | 0 =>
    -- Idle: always collect the character
    let lcc := (s.lineCharCount + 1) % 256
    let buf := s.buf ++ [c]
    if c = 0x0a then
      if 2 < lcc then
        -- first non-blank line complete
        ({ rx := 1, buf := buf, lineCount := 1, lineCharCount := 0, prev := c }, none)
      else
        -- blank/empty line: discard everything, keep waiting
        ({ rx := 0, buf := [], lineCount := s.lineCount, lineCharCount := 0, prev := c }, none)
    else if 42 < lcc then
      -- line too long: discard everything, keep waiting
      ({ rx := 0, buf := [], lineCount := s.lineCount, lineCharCount := 0, prev := c }, none)
    else
      ({ rx := 0, buf := buf, lineCount := s.lineCount, lineCharCount := lcc, prev := c }, none)
  | 1 =>
    -- Collecting subsequent lines until a blank line
    let lcc := (s.lineCharCount + 1) % 256
    let buf := s.buf ++ [c]
    if c = 0x0a then
      if 2 < lcc then
        let ln := (s.lineCount + 1) % 256
        if 8 < ln then
          -- too many lines: wait for the terminating blank line
          ({ rx := 2, buf := buf, lineCount := ln, lineCharCount := 0, prev := c }, none)
        else
          ({ rx := 1, buf := buf, lineCount := ln, lineCharCount := 0, prev := c }, none)
      else if lcc = 2 ∧ s.prev = 0x0d then
        -- blank line: end of message, forward the accumulated buffer
        ({ rx := 0, buf := [], lineCount := s.lineCount, lineCharCount := 0, prev := c }, some buf)
      else
        -- corrupt line
        ({ rx := 2, buf := buf, lineCount := s.lineCount, lineCharCount := 0, prev := c }, none)
    else if 42 < lcc then
      ({ rx := 2, buf := buf, lineCount := s.lineCount, lineCharCount := 0, prev := c }, none)
    else if 312 ≤ buf.length then
      ({ rx := 2, buf := buf, lineCount := s.lineCount, lineCharCount := 0, prev := c }, none)
    else
      ({ rx := 1, buf := buf, lineCount := s.lineCount, lineCharCount := lcc, prev := c }, none)
  | 2 =>
    -- ErrorRecovery: consume (but do not store) until a blank line
    let lcc := (s.lineCharCount + 1) % 256
    if c = 0x0a then
      if 2 < lcc then
        ({ s with lineCharCount := 0, prev := c }, none)
      else if lcc = 2 ∧ s.prev = 0x0d then
        ({ rx := 0, buf := [], lineCount := s.lineCount, lineCharCount := 0, prev := c }, none)
      else
        ({ s with lineCharCount := lcc, prev := c }, none)
    else
      ({ s with lineCharCount := lcc, prev := c }, none)
  | _ =>
    ({ rx := 0, buf := [], lineCount := s.lineCount, lineCharCount := 0, prev := s.prev }, none)

/-- Feed a byte list through `serialRxAdvancedAscii`, collecting the
forwarded messages in order. -/
def asciiRun : AsciiState → List Nat → AsciiState × List (List Nat)
  | s, [] => (s, [])
  | s, c :: cs =>
    let p := asciiStep s c
    let q := asciiRun p.1 cs
    (q.1, p.2.toList ++ q.2)

def asciiInit : AsciiState := ⟨0, [], 0, 0, 0⟩

/-! ## The Binary-Checksummed (Gent) state machine (`serialRxGent`)

`buf.length` models the C static index `i` (every `i++` accompanies a write
at index `i`, and `i` is reset to 0 exactly when the buffer restarts).
`checksum` is the `uint16_t` running sum, kept modulo 65536;
`expected` is `rxExpectedLen`. -/

structure GentState where
  rx : Nat
  buf : List Nat
  expected : Nat
  checksum : Nat
  deriving Repr, DecidableEq

/-- `rxGentValidateEventPair`: the fixed table of permitted
(event MSB, event LSB) combinations, read from `serialRxBuffer[0..1]`. -/
def rxGentValidateEventPair (buf : List Nat) : Bool :=
  let b0 := buf.getD 0 0
  let b1 := buf.getD 1 0
  if b0 = 0 then (1 ≤ b1 ∧ b1 ≤ 6) ∨ b1 = 0x15
  else if b0 = 2 then b1 = 1 ∨ b1 = 2
  else b0 = 4 ∨ b0 = 5 ∨ b0 = 7 ∨ b0 = 9 ∨ b0 = 10 ∨ b0 = 18

def gentStep (s : GentState) (c : Nat) : GentState × Option (List Nat) :=
  match s.rx with
  | 0 =>
    -- event MSB must be ≤ 0x12, else skip
    if 0x12 < c then (s, none)
    else ({ rx := 1, buf := [c], expected := s.expected, checksum := c % 65536 }, none)
  | 1 =>
    -- event LSB: append, update checksum, then validate the pair
    let buf := s.buf ++ [c]
    let ck := (s.checksum + c) % 65536
    if rxGentValidateEventPair buf then
      if c = 0x06 ∨ c = 0x15 then
        -- ACK/NAK: 4-byte frame, checksum bytes come next
        ({ rx := 3, buf := buf, expected := s.expected, checksum := ck }, none)
      else
        -- event frame: fixed 59 bytes
        ({ rx := 2, buf := buf, expected := 56, checksum := ck }, none)
    else
      ({ rx := 0, buf := buf, expected := s.expected, checksum := ck }, none)
  | 2 =>
    -- collecting the 59-byte event body
    let buf := s.buf ++ [c]
    let ck := (s.checksum + c) % 65536
    if s.buf.length < s.expected then
      ({ rx := 2, buf := buf, expected := s.expected, checksum := ck }, none)
    else
      ({ rx := 3, buf := buf, expected := s.expected, checksum := ck }, none)
  | 3 =>
    -- first checksum byte (MSB)
    if c = s.checksum / 256 then
      ({ rx := 4, buf := s.buf ++ [c], expected := s.expected, checksum := s.checksum }, none)
    else
      ({ rx := 0, buf := s.buf, expected := s.expected, checksum := s.checksum }, none)
  | 4 =>
    -- second checksum byte (LSB); forward only full 59-byte event frames
    if c = s.checksum % 256 then
      let buf := s.buf ++ [c]
      ({ rx := 0, buf := buf, expected := s.expected, checksum := s.checksum },
       if buf.length = 59 then some buf else none)
    else
      ({ rx := 0, buf := s.buf, expected := s.expected, checksum := s.checksum }, none)
  | _ => (s, none)

/-- Feed a byte list through `serialRxGent`, collecting forwarded frames. -/
def gentRun : GentState → List Nat → GentState × List (List Nat)
  | s, [] => (s, [])
  | s, c :: cs =>
    let p := gentStep s c
    let q := gentRun p.1 cs
    (q.1, p.2.toList ++ q.2)

def gentInit : GentState := ⟨0, [], 0, 0⟩

/-! ## Outbound clash-code stuffing (`advancedAddClashCodes`)

The first and last bytes are copied without substitution; every middle byte
`v ≥ 0xFA` is replaced by the pair `0xFA, v - 0xFA` (and the length count is
bumped, which the list output reflects as its length). -/

def stuffByte (v : Nat) : List Nat :=
  if 0xfa ≤ v then [0xfa, v - 0xfa] else [v]

def advancedAddClashCodes : List Nat → List Nat
  | [] => []
  | [x] => [x]
  | x :: rest => x :: (rest.dropLast.flatMap stuffByte ++ [rest.getLastD 0])

/-! ## The Transfer Encoder (`serialTxEventToNimbus`)

`serialLen` and `transferLen` are `uint8_t` locals, so every sum is reduced
modulo 256.  `uniqueTransferId` is a `uint8_t` counter; the post-increment
stores the old value into the (4-byte-wide) wire field.  Timestamps are the
`Time.now()` epoch seconds passed in as `now`. -/

structure EventRec where
  type : Nat
  len0 : Nat
  len1 : Nat
  len2 : Nat
  timeStamp : Nat
  secondFracPart : Nat
  payload : List Nat
  deriving Repr, DecidableEq

structure TransferRec where
  type : Nat
  len0 : Nat
  len1 : Nat
  len2 : Nat
  transferId : Nat
  timeStamp : Nat
  secondFracPart : Nat
  deriving Repr, DecidableEq

structure TxResult where
  ev : EventRec
  tr : TransferRec
  nextUid : Nat
  publishLen : Nat
  deriving Repr, DecidableEq

def serialTxEventToNimbus (frame : List Nat) (protocolId uid now : Nat) : TxResult :=
  let serialLen := (frame.length + 8) % 256
  let ev : EventRec :=
    { type := protocolId % 256
      len0 := serialLen, len1 := 0, len2 := 0
      timeStamp := now % 2 ^ 32, secondFracPart := 0
      payload := frame }
  -- serialLen += 4 (Type and Length fields of the event record)
  let serialLen2 := (serialLen + 4) % 256
  -- transferLen = serialLen + 12
  let transferLen := (serialLen2 + 12) % 256
  let tr : TransferRec :=
    { type := 0x83
      len0 := transferLen, len1 := 0, len2 := 0
      transferId := uid % 256
      timeStamp := now % 2 ^ 32, secondFracPart := 0 }
  -- transferLen += 4 for the Base64-encoded publish length
  { ev := ev, tr := tr, nextUid := (uid + 1) % 256, publishLen := (transferLen + 4) % 256 }

/-- The rolling `uniqueTransferId` counter across a sequence of forwarded
events: starts at 1; each call stores the current value and advances it. -/
def uidAfter (frames : Nat → List Nat) (pids nows : Nat → Nat) : Nat → Nat
  | 0 => 1
  | n + 1 =>
    (serialTxEventToNimbus (frames n) (pids n) (uidAfter frames pids nows n) (nows n)).nextUid

/-- The transfer id written into the `n`-th published TransferRecord. -/
def publishedTransferId (frames : Nat → List Nat) (pids nows : Nat → Nat) (n : Nat) : Nat :=
  (serialTxEventToNimbus (frames n) (pids n) (uidAfter frames pids nows n) (nows n)).tr.transferId

/-! ## The protocol registry (`setProtocolType`)

`protocolHandlerTable` has eleven entries (ids 0–10).  Entries 0 and 9 have
null start/stop pointers; the rest are non-null.  Of the non-null handlers,
only Gent (1), Advanced (5) and Advanced-ASCII (10) install an rx handler and
power the isolated interface; the others are empty stubs.  The observable
state is the static `currentId`, the installed `protocolRxHandler` and the
interface power pin. -/

def hasStartHandler (id : Nat) : Bool :=
  id ∈ [1, 2, 3, 4, 5, 6, 7, 8, 10]

def hasStopHandler (id : Nat) : Bool :=
  id ∈ [1, 2, 3, 4, 5, 6, 7, 8, 10]

/-- Protocols whose start/stop handlers actually install/release the rx
handler and switch the interface power (the rest are empty stubs). -/
def installsHandler (id : Nat) : Bool :=
  id ∈ [1, 5, 10]

structure RegState where
  currentId : Nat
  handler : Option Nat
  power : Bool
  deriving Repr, DecidableEq

inductive RegEvent where
  | stopped (id : Nat)
  | started (id : Nat)
  deriving Repr, DecidableEq

def startEffect (id : Nat) (s : RegState) : RegState :=
  if installsHandler id then { s with handler := some id, power := true } else s

def stopEffect (id : Nat) (s : RegState) : RegState :=
  if installsHandler id then { s with handler := none, power := false } else s

/-- `setProtocolType ( Id )`: stop the currently active protocol when its
stop handler is registered (even when re-selecting the same id), then start
the requested protocol when it has a start handler, then record the new
current id.  The event list records the handler invocations in order. -/
def setProtocolType (s : RegState) (id : Nat) : RegState × List RegEvent :=
  let stopPart : RegState × List RegEvent :=
    if hasStopHandler s.currentId then
      (stopEffect s.currentId s, [RegEvent.stopped s.currentId])
    else (s, [])
  let startPart : RegState × List RegEvent :=
    if hasStartHandler id then
      (startEffect id stopPart.1, stopPart.2 ++ [RegEvent.started id])
    else (stopPart.1, stopPart.2)
  ({ startPart.1 with currentId := id }, startPart.2)

def isStopEvent : RegEvent → Bool
  | .stopped _ => true
  | .started _ => false

def isStartEvent : RegEvent → Bool
  | .stopped _ => false
  | .started _ => true

/-! ## Concrete inputs used by the claims -/

/-- `n` repetitions of the two-byte clash escape `0xFA 0x00`. -/
def pumpInput : Nat → List Nat
  | 0 => []
  | n + 1 => 0xfa :: 0x00 :: pumpInput n

/-- Scenario C input: `"LINE1\r\n\r\n"`. -/
def c4Input : List Nat := [0x4c, 0x49, 0x4e, 0x45, 0x31, 0x0d, 0x0a, 0x0d, 0x0a]

/-- Seven full-length 42-character lines (40 `'A'`s plus CRLF) followed by a
blank CRLF line: a well-formed, in-bounds message for the ASCII parser. -/
def c3Input : List Nat :=
  (List.replicate 7 (List.replicate 40 0x41 ++ [0x0d, 0x0a])).flatten ++ [0x0d, 0x0a]

/-- A structurally valid 12-byte Advanced BMS packet: one Device Status
sub-message `{0x0A, length 3, datum}`, terminator 0xF0, correct CRC. -/
def wpkt : List Nat :=
  [0xfe, 0x80, 0x00, 0x00, 0x01, 0x0a, 0x03, 0x01, 0xf0, 0x87, 0xa7, 0xff]

/-- A 12-byte Advanced BMS packet with correct CRC whose first sub-message
carries length byte 0xFD: the 8-bit scan offset 5 + 0xFD wraps to 2, where
the destination-address byte 0x0A is read as another identifier code, and the
scan then reaches the 0xF0 terminator — the packet validates although the
un-wrapped offset 258 passes the bound len-4 = 8. -/
def cpkt : List Nat :=
  [0xfe, 0x80, 0x0a, 0x06, 0x01, 0x0a, 0xfd, 0x00, 0xf0, 0x4d, 0xa1, 0xff]

/-! ## Helper lemmas -/

theorem advRun_cons (v : Bool) (s : AdvState) (c : Nat) (cs : List Nat) :
    advRun v s (c :: cs) =
      ((advRun v (advStep v s c).1 cs).1,
       (if (advStep v s c).2 then 1 else 0) + (advRun v (advStep v s c).1 cs).2) := rfl

/-- Pumping clash escapes: from the collecting state, each `0xFA 0x00` pair
appends one reconstituted 0xFA byte and returns to the collecting state,
with no length check on this path. -/
theorem advRun_pumpInput (v : Bool) (n : Nat) :
    ∀ B d, advRun v ⟨1, B, d⟩ (pumpInput n) =
      (⟨1, B ++ List.replicate n 0xfa, d⟩, 0) := by
  induction n with
  | zero => intro B d; simp [pumpInput, advRun]
  | succ n ih =>
    intro B d
    have h1 : advStep v ⟨1, B, d⟩ 0xfa = (⟨2, B, d⟩, false) := by
      simp [advStep]
    have h2 : advStep v ⟨2, B, d⟩ 0x00 = (⟨1, B ++ [0xfa], d⟩, false) := by
      simp [advStep]
    simp [pumpInput, advRun, h1, h2, ih, List.replicate_succ, List.append_assoc]

/-! ## Claims -/

/-- C1.  The claim states that the Binary-CRC-Stuffed parser never writes
more than 108 bytes for a frame in progress (hence never more than the
512-byte buffer capacity) and that any step that would exceed the bound
resets the parser.  The code violates this on the clash-escape path: the
0xFA prefix branch is tested before the length bound, and the escape state
appends the reconstituted byte with no bound check at all, so the input
`0xFE` followed by 512 `0xFA 0x00` pairs leaves the parser still collecting
(state 1, never reset, nothing forwarded) with 513 bytes written — past both
the 108-byte bound and the 512-byte buffer. -/
theorem C1_clash_escape_exceeds_bound :
    (advRun false advInit (0xfe :: pumpInput 512)).1.buf.length = 513 ∧
    (advRun false advInit (0xfe :: pumpInput 512)).1.rx = 1 ∧
    (advRun false advInit (0xfe :: pumpInput 512)).2 = 0 ∧
    108 < 513 ∧ 512 < 513 := by
  have h0 : advStep false advInit 0xfe = (⟨1, [0xfe], 0⟩, false) := rfl
  have h := advRun_pumpInput false 512 [0xfe] 0
  rw [advRun_cons, h0, h]
  simp

/-- C2 counterexample.  For a 50-byte frame the EventRecord length byte is
58, but the TransferRecord length byte is 74, not the claimed
"EventRecord length + 4" = 62. -/
theorem C2_transfer_length_counterexample :
    (serialTxEventToNimbus (List.replicate 50 0) 5 7 0).ev.len0 = 58 ∧
    (serialTxEventToNimbus (List.replicate 50 0) 5 7 0).tr.len0 = 74 ∧
    (serialTxEventToNimbus (List.replicate 50 0) 5 7 0).tr.len0 ≠ 58 + 4 := by
  refine ⟨by decide, by decide, by decide⟩

/-- C2 (amended).  The Transfer Encoder sets `EventRecord.Type` to the
configured protocol id, `EventRecord.Length[0]` to payload length + 8 with
the other two length bytes zero, `TransferRecord.Type` to 0x83,
`TransferRecord.Length[0]` to the EventRecord length byte + 16 (the code
adds 4 for the event record's type/length fields and then another 12 —
not the + 4 the claim states), writes the current rolling id into the
record, and advances the rolling id by exactly 1 (all in `uint8_t`
arithmetic, hence modulo 256). -/
theorem C2_transfer_encoder_fields (frame : List Nat) (p uid now : Nat) :
    (serialTxEventToNimbus frame p uid now).ev.type = p % 256 ∧
    (serialTxEventToNimbus frame p uid now).ev.len0 = (frame.length + 8) % 256 ∧
    (serialTxEventToNimbus frame p uid now).ev.len1 = 0 ∧
    (serialTxEventToNimbus frame p uid now).ev.len2 = 0 ∧
    (serialTxEventToNimbus frame p uid now).tr.type = 0x83 ∧
    (serialTxEventToNimbus frame p uid now).tr.len0 =
      ((serialTxEventToNimbus frame p uid now).ev.len0 + 16) % 256 ∧
    (serialTxEventToNimbus frame p uid now).tr.len1 = 0 ∧
    (serialTxEventToNimbus frame p uid now).tr.len2 = 0 ∧
    (serialTxEventToNimbus frame p uid now).tr.transferId = uid % 256 ∧
    (serialTxEventToNimbus frame p uid now).nextUid = (uid + 1) % 256 := by
  refine ⟨rfl, rfl, rfl, rfl, rfl, ?_, rfl, rfl, rfl, rfl⟩
  simp only [serialTxEventToNimbus]
  omega

/-- The `checkPacketFormat` scan loop, which carries the already-read code
byte and the post-increment 8-bit offset, computes exactly the claim-style
chain predicate `specSubChain` phrased over code offsets. -/
theorem formatLoop_fst_eq_specSubChain (buf : List Nat) (bound : Nat) :
    ∀ fuel o dev,
      (formatLoop buf bound fuel (buf.getD o 0) ((o + 1) % 256) dev).1 =
        specSubChain buf bound fuel o := by
  intro fuel
  induction fuel with
  | zero => intro o dev; rfl
  | succ fuel ih =>
    intro o dev
    by_cases hm : buf.getD o 0 ∈ knownIdCodes
    · have harith : ((o + 1) % 256 + buf.getD ((o + 1) % 256) 0 + 255) % 256
          = (o + buf.getD ((o + 1) % 256) 0) % 256 := by omega
      by_cases hb : bound < (o + buf.getD ((o + 1) % 256) 0) % 256
      · have hd : decide ((o + buf.getD ((o + 1) % 256) 0) % 256 ≤ bound) = false :=
          decide_eq_false (by omega)
        simp only [formatLoop, specSubChain, if_pos hm, harith, if_pos hb, hd,
          Bool.false_and, Bool.and_false]
      · have hble : (o + buf.getD ((o + 1) % 256) 0) % 256 ≤ bound := by omega
        by_cases hf : buf.getD ((o + buf.getD ((o + 1) % 256) 0) % 256) 0 = 0xf0
        · simp only [formatLoop, specSubChain, if_pos hm, harith, if_neg hb, if_pos hf,
            decide_eq_true hm, decide_eq_true hble, hf, Bool.true_and]
          rfl
        · have hbeq : (buf.getD ((o + buf.getD ((o + 1) % 256) 0) % 256) 0 == 0xf0) = false :=
            beq_eq_false_iff_ne.mpr hf
          simp only [formatLoop, specSubChain, if_pos hm, harith, if_neg hb, if_neg hf,
            decide_eq_true hm, decide_eq_true hble, hbeq, Bool.true_and, Bool.false_or]
          exact ih ((o + buf.getD ((o + 1) % 256) 0) % 256) _
    · have hd : decide (buf.getD o 0 ∈ knownIdCodes) = false := decide_eq_false hm
      simp only [formatLoop, specSubChain, if_neg hm, hd, Bool.false_and]

/-- C5 (amended).  On receiving the end sentinel, the collected packet is
judged valid iff: length at least 12; the table-driven CRC-16 over bytes 1
through len-4 (seeded 0xFF/0xFF) equals the stored high and low CRC bytes;
the packet-identity byte at index 1 equals 0x80; and from the sixth byte the
payload parses as a chain of {identifier-code, length} sub-messages whose
codes all belong to the 7-entry known set, terminated at sentinel code 0xF0
— where, amending the claim, the scan offset is 8-bit and each advance is
taken modulo 256 before the bound check against len-4 (so an advance past
the bound can wrap back into range instead of invalidating the packet). -/
theorem C5_validation_characterisation (buf : List Nat) (len : Nat) (hlen : len ≤ 259) :
    validateAdvancedBmsPacket buf len = true ↔
      (12 ≤ len ∧
       advancedCrcUpdate ((buf.drop 1).take (len - 4)) 0xff 0xff =
         (buf.getD (len - 3) 0, buf.getD (len - 2) 0) ∧
       buf.getD 1 0 = 0x80 ∧
       specSubChain buf (len - 4) 300 5 = true) := by
  have hmod : (len - 4) % 256 = len - 4 := by omega
  have hchain : (checkPacketFormat buf len).1 = specSubChain buf (len - 4) 300 5 := by
    have h := formatLoop_fst_eq_specSubChain buf ((len - 4) % 256) 300 5 0
    rw [hmod] at h
    rw [checkPacketFormat, hmod]
    exact h
  have hcrceq : validateCRC buf len = true ↔
      advancedCrcUpdate ((buf.drop 1).take (len - 4)) 0xff 0xff =
        (buf.getD (len - 3) 0, buf.getD (len - 2) 0) := by
    simp only [validateCRC, Bool.and_eq_true, beq_iff_eq, Prod.ext_iff]
    constructor
    · rintro ⟨ha, hb⟩; exact ⟨ha.symm, hb.symm⟩
    · rintro ⟨ha, hb⟩; exact ⟨ha.symm, hb.symm⟩
  unfold validateAdvancedBmsPacket
  split_ifs with h1 h2 h3
  · constructor
    · intro h; exact absurd h (by simp)
    · intro h; omega
  · rw [Bool.not_eq_true'] at h2
    constructor
    · intro h; exact absurd h (by simp)
    · rintro ⟨-, hc, -, -⟩
      rw [← hcrceq] at hc
      rw [h2] at hc
      exact absurd hc (by simp)
  · rw [bne_iff_ne] at h3
    constructor
    · intro h; exact absurd h (by simp)
    · rintro ⟨-, -, hid, -⟩
      exact absurd hid h3
  · rw [Bool.not_eq_true'] at h2
    rw [bne_iff_ne, not_ne_iff] at h3
    rw [hchain]
    constructor
    · intro h
      refine ⟨by omega, ?_, h3, h⟩
      rw [← hcrceq]
      cases hv : validateCRC buf len
      · rw [hv] at h2; exact absurd h2 (by simp)
      · rfl
    · rintro ⟨-, -, -, h⟩; exact h

/-- C5 counterexample.  A 12-byte packet with correct CRC and identity byte
whose first sub-message length is 0xFD: its un-wrapped scan offset
5 + 0xFD = 258 passes the bound len-4 = 8, so the claim's conditions say the
packet is invalid — yet the code's 8-bit offset wraps to 2, rescans the
destination-address byte as an identifier code, reaches 0xF0 and judges the
packet valid. -/
theorem C5_offset_wrap_counterexample :
    validateAdvancedBmsPacket cpkt 12 = true ∧
    origSubChain cpkt (12 - 4) 300 5 = false := by
  refine ⟨by decide, by decide⟩

/-- Witness for `C5_validation_characterisation` at a concrete valid packet. -/
theorem C5_validation_characterisation_witness :
    (12 : Nat) ≤ 259 ∧
    (validateAdvancedBmsPacket wpkt 12 = true ↔
      (12 ≤ 12 ∧
       advancedCrcUpdate ((wpkt.drop 1).take (12 - 4)) 0xff 0xff =
         (wpkt.getD (12 - 3) 0, wpkt.getD (12 - 2) 0) ∧
       wpkt.getD 1 0 = 0x80 ∧
       specSubChain wpkt (12 - 4) 300 5 = true)) :=
  ⟨by norm_num, C5_validation_characterisation wpkt 12 (by norm_num)⟩

/-- C4 counterexample.  On input `"LINE1\r\n\r\n"` the ASCII parser forwards
exactly one message, but the forwarded bytes are not `"LINE1\r\n"`: the
terminating blank line's CR and LF are appended to the buffer before the
forward call, so 9 bytes go out, not 7. -/
theorem C4_forwarded_content_counterexample :
    (asciiRun asciiInit c4Input).2.length = 1 ∧
    (asciiRun asciiInit c4Input).2 ≠ [[0x4c, 0x49, 0x4e, 0x45, 0x31, 0x0d, 0x0a]] := by
  refine ⟨by decide, by decide⟩

/-- C4 (amended).  On input `"LINE1\r\n\r\n"` from Idle, exactly one message
is forwarded and its content is `"LINE1\r\n\r\n"` (9 bytes — the blank
terminator line is included in the forwarded buffer). -/
theorem C4_ascii_scenario :
    (asciiRun asciiInit c4Input).2 =
      [[0x4c, 0x49, 0x4e, 0x45, 0x31, 0x0d, 0x0a, 0x0d, 0x0a]] := by
  decide

/-- C6.  When the collecting state receives the end sentinel 0xFF, the
completed packet (collected bytes plus the appended 0xFF) is forwarded iff
it is structurally valid and (verbose is enabled or it contains at least one
Device Status identifier code), or it is invalid and verbose is enabled;
when invalid and not verbose, nothing is forwarded and the packet's bytes
are added to the discarded-bytes counter.  In particular the 10-byte frame
`FE 80 00 00 00 00 00 00 00 FF` is rejected (too short) and forwarded only
under verbose. -/
theorem C6_forwarding_policy (v : Bool) (B : List Nat) (d : Nat) :
    ((advStep v ⟨1, B, d⟩ 0xff).2 =
      (validateAdvancedBmsPacket (B ++ [0xff]) (B ++ [0xff]).length &&
        (v || decide (0 < (checkPacketFormat (B ++ [0xff]) (B ++ [0xff]).length).2)) ||
       (!validateAdvancedBmsPacket (B ++ [0xff]) (B ++ [0xff]).length && v))) ∧
    ((advStep v ⟨1, B, d⟩ 0xff).1.discarded =
      d + (if validateAdvancedBmsPacket (B ++ [0xff]) (B ++ [0xff]).length || v
           then 0 else (B ++ [0xff]).length)) ∧
    (advStep false ⟨1, [0xfe, 0x80, 0, 0, 0, 0, 0, 0, 0], 0⟩ 0xff).2 = false ∧
    (advStep true ⟨1, [0xfe, 0x80, 0, 0, 0, 0, 0, 0, 0], 0⟩ 0xff).2 = true ∧
    validateAdvancedBmsPacket [0xfe, 0x80, 0, 0, 0, 0, 0, 0, 0, 0xff] 10 = false := by
  refine ⟨?_, ?_, by decide, by decide, by decide⟩
  · cases hval : validateAdvancedBmsPacket (B ++ [0xff]) (B ++ [0xff]).length <;>
      cases v <;> simp_all [advStep]
  · cases hval : validateAdvancedBmsPacket (B ++ [0xff]) (B ++ [0xff]).length <;>
      cases v <;> simp_all [advStep]

/-- C7.  `serialRxGent` forwards a frame only from the final checksum state,
only when the low checksum byte matches, and only when the completed frame
is exactly 59 bytes — so validated 4-byte ACK/NAK frames are never
forwarded.  In particular the ACK input `00 06 00 06` runs through event-pair
validation (pair (0,6), running checksum 6, so checksum bytes 0x00 then
0x06 both verified, reaching the final state) and produces no forward
call. -/
theorem C7_gent_forward_only_events :
    (∀ (s : GentState) (c : Nat),
      ((gentStep s c).2.all fun f =>
        (f.length == 59) && decide (s.rx = 4) && (c == s.checksum % 256) &&
          decide (f = s.buf ++ [c])) = true) ∧
    (gentRun gentInit [0x00, 0x06, 0x00, 0x06]).2 = [] ∧
    (gentRun gentInit [0x00, 0x06]).1.buf = [0x00, 0x06] ∧
    (gentRun gentInit [0x00, 0x06]).1.checksum = 6 ∧
    (gentRun gentInit [0x00, 0x06]).1.rx = 3 ∧
    (gentRun gentInit [0x00, 0x06, 0x00]).1.rx = 4 ∧
    (gentRun gentInit [0x00, 0x06, 0x00, 0x06]).1.rx = 0 ∧
    (gentRun gentInit [0x00, 0x06, 0x00, 0x06]).1.buf = [0x00, 0x06, 0x00, 0x06] := by
  refine ⟨?_, by decide, by decide, by decide, by decide, by decide, by decide, by decide⟩
  rintro ⟨rx, buf, exp, ck⟩ c
  match rx with
  | 0 => simp only [gentStep]; split_ifs <;> simp
  | 1 => simp only [gentStep]; split_ifs <;> simp
  | 2 => simp only [gentStep]; split_ifs <;> simp
  | 3 => simp only [gentStep]; split_ifs <;> simp
  | 4 =>
    simp only [gentStep]
    split_ifs with hc h59 <;> simp_all
  | (n + 5) => simp [gentStep]

/-- C9.  Clash-code round-trip: for every byte `b` in `[0xFA, 0xFF]` the
outbound stuffing function encodes a body byte `b` as the two-byte sequence
`0xFA, b - 0xFA`, and feeding that two-byte sequence to the Binary-CRC-Stuffed
parser mid-frame appends exactly the original byte `b` to the receive buffer
(returning to the collecting state, forwarding nothing), so
decode (encode b) = b. -/
theorem C9_clash_roundtrip (x y b : Nat) (v : Bool) (B : List Nat) (d : Nat)
    (h1 : 0xfa ≤ b) (h2 : b ≤ 0xff) :
    advancedAddClashCodes [x, b, y] = [x, 0xfa, b - 0xfa, y] ∧
    advRun v ⟨1, B, d⟩ [0xfa, b - 0xfa] = (⟨1, B ++ [b], d⟩, 0) := by
  constructor
  · simp [advancedAddClashCodes, stuffByte, h1]
  · have hstep1 : advStep v ⟨1, B, d⟩ 0xfa = (⟨2, B, d⟩, false) := by
      simp [advStep]
    have hstep2 : advStep v ⟨2, B, d⟩ (b - 0xfa) = (⟨1, B ++ [b], d⟩, false) := by
      have hb5 : ¬ 5 < b - 0xfa := by omega
      have hb : b - 0xfa + 0xfa = b := by omega
      simp [advStep, hb5, hb]
    rw [advRun_cons, hstep1, advRun_cons, hstep2]
    simp [advRun]

/-- Witness for `C9_clash_roundtrip` at `b = 0xFD`. -/
theorem C9_clash_roundtrip_witness :
    (0xfa : Nat) ≤ 0xfd ∧ (0xfd : Nat) ≤ 0xff ∧
    (advancedAddClashCodes [0x00, 0xfd, 0x01] = [0x00, 0xfa, 0xfd - 0xfa, 0x01] ∧
     advRun false ⟨1, [0xfe], 0⟩ [0xfa, 0xfd - 0xfa] = (⟨1, [0xfe] ++ [0xfd], 0⟩, 0)) :=
  ⟨by norm_num, by norm_num,
   C9_clash_roundtrip 0x00 0x01 0xfd false [0xfe] 0 (by norm_num) (by norm_num)⟩

/-- The `uniqueTransferId` counter equals `(1 + number of calls) % 256`. -/
theorem uidAfter_eq (frames : Nat → List Nat) (pids nows : Nat → Nat) :
    ∀ n, uidAfter frames pids nows n = (1 + n) % 256 := by
  intro n
  induction n with
  | zero => rfl
  | succ n ih =>
    simp only [uidAfter, serialTxEventToNimbus, ih]
    omega

/-- C10.  The rolling transfer id written into every published
TransferRecord comes from the 8-bit counter initialised to 1: the first
published record carries id 1, consecutive records carry ids that increase
by exactly 1 modulo 256, and the field's value never exceeds 255 — for any
sequence of forwarded frames, protocol ids and timestamps. -/
theorem C10_transfer_id_rolling (frames : Nat → List Nat) (pids nows : Nat → Nat)
    (n : Nat) :
    publishedTransferId frames pids nows 0 = 1 ∧
    publishedTransferId frames pids nows n ≤ 255 ∧
    publishedTransferId frames pids nows (n + 1) =
      (publishedTransferId frames pids nows n + 1) % 256 := by
  have h := uidAfter_eq frames pids nows
  refine ⟨?_, ?_, ?_⟩ <;>
    simp only [publishedTransferId, serialTxEventToNimbus, h] <;> omega

/-- C8 (amended).  Protocol switching is idempotent on the observable state:
from any state, calling `setProtocolType X` twice leaves the same observable
state (current id, installed byte-handler, interface power) as calling it
once, with final active id `X`; and whenever the initially-active protocol
and `X` both have registered stop handlers and `X` has a registered start
handler, the two calls invoke stop handlers exactly twice and start handlers
exactly twice, in stop-before-start order each time (the claim's
unconditional "stop invoked exactly twice / start exactly twice" fails when
a handler slot is unregistered, e.g. switching away from the default
no-protocol state). -/
theorem C8_switch_idempotent (s : RegState) (X : Nat) :
    ((setProtocolType (setProtocolType s X).1 X).1 = (setProtocolType s X).1 ∧
     (setProtocolType s X).1.currentId = X) ∧
    (hasStopHandler s.currentId = true → hasStopHandler X = true →
     hasStartHandler X = true →
      (setProtocolType s X).2 ++ (setProtocolType (setProtocolType s X).1 X).2 =
        [RegEvent.stopped s.currentId, RegEvent.started X,
         RegEvent.stopped X, RegEvent.started X]) := by
  rcases s with ⟨cur, hndl, pw⟩
  have hss : ∀ i, hasStopHandler i = hasStartHandler i := fun i => rfl
  refine ⟨⟨?_, ?_⟩, ?_⟩
  · by_cases hX : hasStartHandler X <;>
      by_cases hI : installsHandler X <;>
        by_cases hC : hasStopHandler cur <;>
          simp [setProtocolType, startEffect, stopEffect, hX, hI, hC, hss X]
  · simp [setProtocolType]
  · intro hC hXstop hXstart
    by_cases hI : installsHandler X <;>
      simp [setProtocolType, startEffect, stopEffect, hC, hXstop, hXstart, hI]

/-- C8 counterexample.  From the default state (no protocol active, id 0 has
no registered stop handler), calling `setProtocolType 1` twice invokes the
stop handler once, not the claimed "exactly twice". -/
theorem C8_stop_count_counterexample :
    (((setProtocolType ⟨0, none, false⟩ 1).2 ++
        (setProtocolType (setProtocolType ⟨0, none, false⟩ 1).1 1).2).filter
          isStopEvent).length = 1 ∧
    (((setProtocolType ⟨0, none, false⟩ 1).2 ++
        (setProtocolType (setProtocolType ⟨0, none, false⟩ 1).1 1).2).filter
          isStopEvent).length ≠ 2 := by
  refine ⟨by decide, by decide⟩

/-- Witness for `C8_switch_idempotent`: with Gent (id 1) active, switching
to Advanced (id 5) twice produces the four handler invocations in order. -/
theorem C8_switch_idempotent_witness :
    (setProtocolType ⟨1, some 1, true⟩ 5).2 ++
      (setProtocolType (setProtocolType ⟨1, some 1, true⟩ 5).1 5).2 =
      [RegEvent.stopped 1, RegEvent.started 5,
       RegEvent.stopped 5, RegEvent.started 5] :=
  (C8_switch_idempotent ⟨1, some 1, true⟩ 5).2 (by decide) (by decide) (by decide)

/-- C3.  The claim states every frame any parser forwards is at most
244 bytes (the EventRecord payload capacity).  The Line-Oriented-ASCII
parser violates this: seven full-length 42-character lines plus the blank
terminator form a well-formed message of 296 bytes, which is forwarded in
full (and `serialTxEventToNimbus` then copies all 296 bytes into the
244-byte `eventMessage.Data` field). -/
theorem C3_ascii_forwards_oversized_frame :
    ((asciiRun asciiInit c3Input).2.map List.length) = [296] ∧ 244 < 296 := by
  refine ⟨by decide, by decide⟩

end Gateway
